import Mathlib

/-!
Formal model of the Stage bumper sensor model, translated from
`src/libstage/model_bumper.cc` (class `ModelBumper`): configuration loading
(`Load`), lifecycle (`Startup`/`Shutdown`) and the per-tick `Update` that
turns the transducer array into ray casts and a sample buffer.

Machine doubles are modelled as real numbers.  Parts of the repository that
`model_bumper.cc` calls but whose sources are not available here
(`Model::IsRelated`, `World::Raytrace`, the worldfile property readers) are
modelled from the specification; each such definition carries a doc comment
saying so.
-/

/-- Pose (x, y, z, heading), as in Stage's `Pose` class; a default-constructed
`Pose` is all zeroes. -/
structure Pose where
  x : ℝ
  y : ℝ
  z : ℝ
  a : ℝ

/-- One transducer's configuration: pose offset and length, as in
`bumper_config_t`. -/
structure bumper_config_t where
  pose : Pose
  length : ℝ

/-- A 2-D point, as in Stage's `point_t`. -/
structure point_t where
  x : ℝ
  y : ℝ

/-- One sample: hit flag and hit point, as in `bumper_sample_t`.  The C++
struct's `hit_point` is a plain (non-optional) field. -/
structure bumper_sample_t where
  hit : Bool
  hit_point : point_t

/-- Value used for freshly allocated sample slots.  In C++ `new
bumper_sample_t[n]` leaves the contents indeterminate; no theorem below
depends on a slot's content before the update loop writes it. -/
def freshSample : bumper_sample_t := ⟨false, ⟨0, 0⟩⟩

/-- A model in the world's ownership tree, carrying its identity, its
`vis.obstacle_return` flag and its chain of ancestors.  Two models are the
same model iff they are structurally equal. -/
inductive ModelT : Type where
  | root (ident : Nat) (obstacle : Bool)
  | child (ident : Nat) (obstacle : Bool) (parent : ModelT)
deriving DecidableEq

/-- The model's `vis.obstacle_return` flag. -/
def ModelT.obstacle_return : ModelT → Bool
  | .root _ o => o
  | .child _ o _ => o

/-- The proper ancestors of a model, nearest parent first. -/
def ModelT.ancestors : ModelT → List ModelT
  | .root _ _ => []
  | .child _ _ p => p :: p.ancestors

/-- True iff `a` is a proper ancestor of `b`. -/
def ModelT.isAncestorOf (a b : ModelT) : Bool :=
  decide (a ∈ b.ancestors)

/-- Modelled from the spec: `Model::IsRelated` (its source, `model.cc`, is
not under `src/`).  Per the spec, `related` is true iff the candidate is
self, an ancestor of self, or a descendant of self. -/
def ModelT.IsRelated (c f : ModelT) : Bool :=
  decide (c = f) || c.isAncestorOf f || f.isAncestorOf c

/-- Result of a ray cast, as in Stage's `RaytraceResult`: the hit model (null
pointer = no hit) and the pose of the hit point. -/
structure RaytraceResult where
  mod : Option ModelT
  pose : Pose

/-- A candidate is retained by a cast iff the caller's matcher accepts it and
its intersection distance lies in `[0, max_range)`: the engine's ray marching
starts at the origin and stops once the travelled distance reaches
`max_range`. -/
noncomputable def castAccepts (matcher : ModelT → Bool) (max_range : ℝ) (c : ModelT × ℝ) : Bool :=
  matcher c.1 && decide (0 ≤ c.2) && decide (c.2 < max_range)

/-- The candidate with the smallest intersection distance (ties keep the
earlier list entry; the spec leaves equal-range tie-breaks
implementation-defined but deterministic). -/
noncomputable def nearestCand : List (ModelT × ℝ) → Option (ModelT × ℝ)
  | [] => none
  | c :: rest =>
    match nearestCand rest with
    | none => some c
    | some b => if c.2 ≤ b.2 then some c else some b

/-- Modelled from the spec: `Model::Raytrace` / the raytrace engine (its
source is not under `src/`).  `cands` lists every model intersecting the
ray's line together with its intersection distance from the ray origin; the
query returns the geometrically nearest candidate accepted by the matcher
within `max_range`, or no hit.  The hit pose is the origin advanced by the
hit distance along the heading (on a miss, by `max_range`). -/
noncomputable def raytrace (cands : List (ModelT × ℝ)) (p : Pose) (max_range : ℝ)
    (matcher : ModelT → Bool) : RaytraceResult :=
  match nearestCand (cands.filter (castAccepts matcher max_range)) with
  | none => ⟨none, ⟨p.x + max_range * Real.cos p.a, p.y + max_range * Real.sin p.a, 0, p.a⟩⟩
  | some c => ⟨some c.1, ⟨p.x + c.2 * Real.cos p.a, p.y + c.2 * Real.sin p.a, 0, p.a⟩⟩

/-- The acceptance predicate `bumper_match` from `model_bumper.cc`: ignore
models that are not obstacles, and ignore myself, my children and my
ancestors. -/
def bumper_match (candidate finder : ModelT) : Bool :=
  candidate.obstacle_return && !(candidate.IsRelated finder)

/-- The sensor state owned by a `ModelBumper`: the transducer configuration
array (`NULL` = unconfigured), the lazily allocated sample buffer, the count,
and the model's power draw. -/
structure BumperState where
  bumpers : Option (List bumper_config_t)
  samples : Option (List bumper_sample_t)
  bumper_count : Nat
  watts : ℝ

/-- Bumper power consumption, `BUMPER_WATTS`. -/
def BUMPER_WATTS : ℝ := 0.1

/-- State established by the `ModelBumper` constructor: `bumpers = NULL`,
`samples = NULL`, `bumper_count = 0`. -/
def initState : BumperState := ⟨none, none, 0, 0⟩

/-- `ModelBumper::Startup`: sets the power draw to `BUMPER_WATTS`. -/
def Startup (s : BumperState) : BumperState :=
  { s with watts := BUMPER_WATTS }

/-- `ModelBumper::Shutdown`: sets the power draw to zero and frees the sample
buffer if present. -/
def Shutdown (s : BumperState) : BumperState :=
  { s with watts := 0, samples := none }

/-- The worldfile properties `ModelBumper::Load` reads.  Per-index properties
are keyed (`bpose[i]`, `blength[i]`); they are recorded here as association
lists in the order they were supplied, with lookup by index. -/
structure Worldfile where
  bcount : Option Int
  blength : Option ℝ
  bposes : List (Nat × (ℝ × ℝ × ℝ × ℝ))
  blengths : List (Nat × ℝ)

/-- Modelled from the spec: the worldfile readers (`Worldfile::ReadLength`
etc., not under `src/`) return the stored value of a key, or the caller's
default when the key is absent. -/
def readKeyed {α : Type} (entries : List (Nat × α)) (i : Nat) (dflt : α) : α :=
  match entries.lookup i with
  | some v => v
  | none => dflt

/-- The first configuration loop of `ModelBumper::Load`: set all transducers
with the common settings (`bumpers[i].length = common_length`). -/
def setCommon (n : Nat) (common_length : ℝ) : List bumper_config_t :=
  List.replicate n ⟨⟨0, 0, 0, 0⟩, common_length⟩

/-- The second configuration loop of `ModelBumper::Load`: for each index `i`,
read `bpose[i]` (tuple components default 0) and `blength[i]` (default: the
length already stored, i.e. the common length). -/
def applyIndexed (wf : Worldfile) (bs : List bumper_config_t) : List bumper_config_t :=
  bs.mapIdx fun i b =>
    let tup := readKeyed wf.bposes i (0, 0, 0, 0)
    { pose := ⟨tup.1, tup.2.1, tup.2.2.1, tup.2.2.2⟩,
      length := readKeyed wf.blengths i b.length }

/-- The transducer array built by `ModelBumper::Load` for a given count. -/
def buildBumpers (wf : Worldfile) (n : Nat) : List bumper_config_t :=
  applyIndexed wf (setCommon n (wf.blength.getD 0))

/-- `ModelBumper::Load`: if `bcount` exists, read it, `assert` it is positive
(`none` models the assertion aborting the program), replace the transducer
array, and leave every other field — in particular `samples` — untouched. -/
def Load (wf : Worldfile) (s : BumperState) : Option BumperState :=
  match wf.bcount with
  | none => some s
  | some n =>
    if n ≤ 0 then none
    else some { s with bumper_count := n.toNat,
                       bumpers := some (buildBumpers wf n.toNat) }

/-- Placeholder configuration returned for an out-of-range read of the
transducer array; `Load` always makes the array's length equal to
`bumper_count`, so `Update` never actually reads it. -/
def dfltConfig : bumper_config_t := ⟨⟨0, 0, 0, 0⟩, 0⟩

/-- The probe pose computed by `ModelBumper::Update` for one transducer: the
sensor is rotated by π/2 and positioned at an extremity of the bumper. -/
noncomputable def probePose (b : bumper_config_t) : Pose :=
  let a := b.pose.a + Real.pi / 2
  ⟨b.pose.x - b.length / 2 * Real.cos a, b.pose.y - b.length / 2 * Real.sin a, 0, a⟩

/-- The (pose, max_range) pair `Update` passes to `Raytrace` for one
transducer. -/
noncomputable def castOf (b : bumper_config_t) : Pose × ℝ :=
  (probePose b, b.length)

/-- The list of ray casts a call to `Update` issues: none when the guard
`bumpers == NULL || bumper_count < 1` returns early, else one per index
`t < bumper_count`. -/
noncomputable def updateCasts (s : BumperState) : List (Pose × ℝ) :=
  if s.bumpers.isNone ∨ s.bumper_count < 1 then []
  else (List.range s.bumper_count).map fun t =>
    castOf ((s.bumpers.getD []).getD t dfltConfig)

/-- The loop `for t = 0 .. count-1: samples[t] = f t samples[t]`, writing in
index order.  A write at an index beyond the buffer's length is lost in this
model; in C++ it is an out-of-bounds write. -/
def writeLoop (f : Nat → bumper_sample_t → bumper_sample_t) :
    Nat → List bumper_sample_t → List bumper_sample_t
  | 0, acc => acc
  | n + 1, acc =>
    (writeLoop f n acc).set n (f n ((writeLoop f n acc).getD n freshSample))

/-- The ray cast `Update` issues for transducer index `t`: compute the probe
pose for `bumpers[t]` and call `Raytrace` with `max_range = bumpers[t].length`
and the `bumper_match` predicate (with this model as finder). -/
noncomputable def rayFor (geom : Pose → List (ModelT × ℝ)) (finder : ModelT)
    (bs : List bumper_config_t) (t : Nat) : RaytraceResult :=
  let b := bs.getD t dfltConfig
  raytrace (geom (probePose b)) (probePose b) b.length (fun c => bumper_match c finder)

/-- The body of `Update`'s loop for index `t`: cast the ray, store the hit
flag, and store the hit point only when there was a hit (on a miss the
`hit_point` field is not assigned). -/
noncomputable def updateSample (geom : Pose → List (ModelT × ℝ)) (finder : ModelT)
    (bs : List bumper_config_t) (t : Nat) (old : bumper_sample_t) : bumper_sample_t :=
  let ray := rayFor geom finder bs t
  { hit := ray.mod.isSome,
    hit_point := if ray.mod.isSome then ⟨ray.pose.x, ray.pose.y⟩ else old.hit_point }

/-- `ModelBumper::Update`.  `geom` is the spatial index oracle: for a probe
pose it yields the models intersecting that ray's line with their distances
(spec-modelled, see `raytrace`); `finder` is this model.  Returns early when
unconfigured; allocates the sample buffer when `samples == NULL`; then runs
the per-transducer loop. -/
noncomputable def Update (geom : Pose → List (ModelT × ℝ)) (finder : ModelT)
    (s : BumperState) : BumperState :=
  if s.bumpers.isNone ∨ s.bumper_count < 1 then s
  else
    let bs := s.bumpers.getD []
    let samples0 := s.samples.getD (List.replicate s.bumper_count freshSample)
    { s with samples := some (writeLoop (updateSample geom finder bs) s.bumper_count samples0) }

/-- True iff a call to `Update` on this state allocates a fresh sample
buffer (`samples == NULL` and the unconfigured guard does not return early). -/
def updateAllocates (s : BumperState) : Bool :=
  !(s.bumpers.isNone || decide (s.bumper_count < 1)) && s.samples.isNone

/-! ### Helper lemmas about the update loop -/

/-- The update loop never changes the buffer's length. -/
theorem writeLoop_length (f : Nat → bumper_sample_t → bumper_sample_t) (n : Nat)
    (acc : List bumper_sample_t) : (writeLoop f n acc).length = acc.length := by
  induction n with
  | zero => rfl
  | succ n ih => simp [writeLoop, List.length_set, ih]

/-- Indices not yet reached by the update loop are untouched. -/
theorem writeLoop_getElem?_of_le (f : Nat → bumper_sample_t → bumper_sample_t) {n t : Nat}
    (acc : List bumper_sample_t) (h : n ≤ t) : (writeLoop f n acc)[t]? = acc[t]? := by
  induction n with
  | zero => rfl
  | succ n ih =>
    rw [writeLoop, List.getElem?_set_ne (by omega), ih (by omega)]

/-- Each in-range index holds the image of its original content after the
update loop. -/
theorem writeLoop_getElem?_of_lt (f : Nat → bumper_sample_t → bumper_sample_t) {n t : Nat}
    (acc : List bumper_sample_t) (ht : t < n) (hlen : t < acc.length) :
    (writeLoop f n acc)[t]? = some (f t (acc.getD t freshSample)) := by
  induction n with
  | zero => omega
  | succ n ih =>
    rw [writeLoop]
    by_cases he : t = n
    · subst he
      rw [List.getElem?_set_eq_of_lt _ (by rw [writeLoop_length]; exact hlen)]
      rw [List.getD_eq_getElem?_getD, writeLoop_getElem?_of_le f acc (le_refl t),
        List.getD_eq_getElem?_getD]
    · rw [List.getElem?_set_ne (by omega)]
      exact ih (by omega)

/-! ### Shared example values used by witnesses -/

/-- An example top-level model acting as the caster. -/
def mEx : ModelT := .root 0 true

/-- An example unrelated obstacle model. -/
def mObs : ModelT := .root 1 true

/-- A geometry oracle for an empty world: no candidate intersects any ray. -/
def gEmpty : Pose → List (ModelT × ℝ) := fun _ => []

/-- The transducer of the spec's probe-geometry example: local pose
(0, 0, 0, 0), length 0.2. -/
def cfg02 : bumper_config_t := ⟨⟨0, 0, 0, 0⟩, 0.2⟩

/-! ### Claims -/

/-- C7: if the transducer array is unconfigured (`bumpers == NULL` or
`bumper_count = 0`), `Update` is a no-op on the sensor state: the state is
returned unchanged (so the sample buffer and transducer array are untouched),
no ray cast is issued, and no sample buffer is allocated. -/
theorem C7_unconfigured_update_noop (geom : Pose → List (ModelT × ℝ)) (finder : ModelT)
    (s : BumperState) (h : s.bumpers = none ∨ s.bumper_count = 0) :
    Update geom finder s = s ∧ updateCasts s = [] ∧ updateAllocates s = false := by
  have h' : s.bumpers.isNone = true ∨ s.bumper_count < 1 := by
    rcases h with h | h
    · left; rw [h]; rfl
    · right; omega
  have hcond : (s.bumpers.isNone = true ∨ s.bumper_count < 1) := h'
  refine ⟨?_, ?_, ?_⟩
  · rw [Update, if_pos hcond]
  · rw [updateCasts, if_pos hcond]
  · rcases h' with h' | h'
    · simp [updateAllocates, h']
    · simp [updateAllocates, h']

/-- Witness for C7 at a concrete unconfigured state. -/
theorem C7_unconfigured_update_noop_witness :
    Update gEmpty mEx initState = initState ∧ updateCasts initState = [] ∧
      updateAllocates initState = false :=
  C7_unconfigured_update_noop gEmpty mEx initState (Or.inl rfl)

/-- C8: `Startup` sets the power draw to the fixed operating wattage 0.1 W;
`Shutdown` sets the power draw to zero, frees the sample buffer, and leaves
the transducer array configuration (array and count) unchanged; `Shutdown` is
idempotent. -/
theorem C8_startup_shutdown_power (s : BumperState) :
    (Startup s).watts = BUMPER_WATTS ∧ BUMPER_WATTS = 0.1
  ∧ (Shutdown s).watts = 0 ∧ (Shutdown s).samples = none
  ∧ (Shutdown s).bumpers = s.bumpers ∧ (Shutdown s).bumper_count = s.bumper_count
  ∧ Shutdown (Shutdown s) = Shutdown s :=
  ⟨rfl, rfl, rfl, rfl, rfl, rfl, rfl⟩

/-- C9: when the `bcount` key is present with a non-positive value, `Load`
fails fast (the assertion aborts, modelled by `none`) instead of configuring
an array; and whenever `Load` does succeed with a `bcount` key present, the
resulting count is positive. -/
theorem C9_nonpositive_count_fails_fast :
    (∀ (wf : Worldfile) (s : BumperState) (n : Int),
       wf.bcount = some n → n ≤ 0 → Load wf s = none)
  ∧ (∀ (wf : Worldfile) (s s' : BumperState) (n : Int),
       wf.bcount = some n → Load wf s = some s' → 0 < s'.bumper_count) := by
  constructor
  · intro wf s n hc hn
    rw [Load, hc]
    simp [hn]
  · intro wf s s' n hc hl
    simp only [Load, hc] at hl
    by_cases hn : n ≤ 0
    · simp [hn] at hl
    · rw [if_neg hn] at hl
      have : s'.bumper_count = n.toNat := by
        cases hl
        rfl
      rw [this]
      omega

/-- Witness for C9: `bcount 0` aborts loading; a successful load with
`bcount 2` yields a positive count. -/
theorem C9_nonpositive_count_fails_fast_witness :
    Load ⟨some 0, none, [], []⟩ initState = none ∧
      (0 : Int) ≤ 0 ∧
      Load ⟨some 2, none, [], []⟩ initState =
        some { initState with bumper_count := 2,
                              bumpers := some (buildBumpers ⟨some 2, none, [], []⟩ 2) } ∧
      0 < (Load ⟨some 2, none, [], []⟩ initState).elim 0 BumperState.bumper_count :=
  ⟨C9_nonpositive_count_fails_fast.1 ⟨some 0, none, [], []⟩ initState 0 rfl (by decide),
   by decide, rfl,
   C9_nonpositive_count_fails_fast.2 ⟨some 2, none, [], []⟩ initState _ 2 rfl rfl⟩

/-- C6: lazy allocation.  The constructor leaves no sample buffer; `Startup`
and `Load` do not create one; the first `Update` on a configured state with
no buffer allocates one of exactly `bumper_count` samples; any later `Update`
finds a buffer and does not allocate, writing the existing buffer in place
(its length is preserved). -/
theorem C6_lazy_allocation :
    initState.samples = none
  ∧ (∀ s : BumperState, (Startup s).samples = s.samples)
  ∧ (∀ (wf : Worldfile) (s s' : BumperState), Load wf s = some s' → s'.samples = s.samples)
  ∧ (∀ (geom : Pose → List (ModelT × ℝ)) (finder : ModelT) (s : BumperState),
       s.bumpers.isSome = true → 1 ≤ s.bumper_count → s.samples = none →
       updateAllocates s = true ∧
         (Update geom finder s).samples.map List.length = some s.bumper_count)
  ∧ (∀ (geom : Pose → List (ModelT × ℝ)) (finder : ModelT) (s : BumperState)
       (b : List bumper_sample_t),
       s.bumpers.isSome = true → 1 ≤ s.bumper_count → s.samples = some b →
       updateAllocates s = false ∧
         (Update geom finder s).samples.map List.length = some b.length) := by
  refine ⟨rfl, fun s => rfl, ?_, ?_, ?_⟩
  · intro wf s s' hl
    cases hwf : wf.bcount with
    | none => simp only [Load, hwf] at hl; cases hl; rfl
    | some n =>
      simp only [Load, hwf] at hl
      by_cases hn : n ≤ 0
      · simp [hn] at hl
      · rw [if_neg hn] at hl; cases hl; rfl
  · intro geom finder s hb hc hs
    obtain ⟨bs, hbs⟩ := Option.isSome_iff_exists.mp hb
    have hcond : ¬(s.bumpers.isNone = true ∨ s.bumper_count < 1) := by
      rw [hbs]; push_neg; exact ⟨by simp, by omega⟩
    refine ⟨?_, ?_⟩
    · simp [updateAllocates, hbs, hs, Nat.not_lt.mpr hc]
    · rw [Update, if_neg hcond]
      simp [hs, writeLoop_length]
  · intro geom finder s b hb hc hs
    obtain ⟨bs, hbs⟩ := Option.isSome_iff_exists.mp hb
    have hcond : ¬(s.bumpers.isNone = true ∨ s.bumper_count < 1) := by
      rw [hbs]; push_neg; exact ⟨by simp, by omega⟩
    refine ⟨?_, ?_⟩
    · simp [updateAllocates, hbs, hs]
    · rw [Update, if_neg hcond]
      simp [hs, writeLoop_length]

/-- A configured state with one transducer and no sample buffer yet. -/
def sLazy : BumperState := ⟨some [cfg02], none, 1, BUMPER_WATTS⟩

/-- The same state after one update allocated a one-element buffer. -/
def sLazy2 : BumperState := ⟨some [cfg02], some [freshSample], 1, BUMPER_WATTS⟩

/-- Witness for C6: first update allocates a 1-element buffer, the next one
does not allocate and keeps the length. -/
theorem C6_lazy_allocation_witness :
    (updateAllocates sLazy = true ∧
      (Update gEmpty mEx sLazy).samples.map List.length = some sLazy.bumper_count)
  ∧ (updateAllocates sLazy2 = false ∧
      (Update gEmpty mEx sLazy2).samples.map List.length = some [freshSample].length) :=
  ⟨C6_lazy_allocation.2.2.2.1 gEmpty mEx sLazy rfl (by decide) rfl,
   C6_lazy_allocation.2.2.2.2 gEmpty mEx sLazy2 [freshSample] rfl (by decide) rfl⟩

/-- C1: for every transducer, the probe pose is rotated by π/2 and anchored
at an extremity of the strip (`x − (length/2)·cos`, `y − (length/2)·sin`),
the maximum range of the cast is the transducer's length, the update loop
issues exactly this cast for every configured index, and on the
(0, 0, 0, 0°), length-0.2 example the probe is at heading π/2 with origin
(0, −0.1) and max range 0.2. -/
theorem C1_probe_geometry :
    (∀ b : bumper_config_t,
       probePose b = ⟨b.pose.x - b.length / 2 * Real.cos (b.pose.a + Real.pi / 2),
                      b.pose.y - b.length / 2 * Real.sin (b.pose.a + Real.pi / 2),
                      0, b.pose.a + Real.pi / 2⟩
     ∧ castOf b = (probePose b, b.length))
  ∧ (∀ (s : BumperState) (bs : List bumper_config_t) (t : Nat) (b : bumper_config_t),
       s.bumpers = some bs → 1 ≤ s.bumper_count → t < s.bumper_count → bs[t]? = some b →
       (updateCasts s)[t]? = some (probePose b, b.length))
  ∧ probePose cfg02 = ⟨0, -0.1, 0, Real.pi / 2⟩
  ∧ castOf cfg02 = (probePose cfg02, 0.2) := by
  refine ⟨fun b => ⟨rfl, rfl⟩, ?_, ?_, rfl⟩
  · intro s bs t b hbs hc ht hbt
    have hcond : ¬(s.bumpers.isNone = true ∨ s.bumper_count < 1) := by
      rw [hbs]; push_neg; exact ⟨by simp, by omega⟩
    rw [updateCasts, if_neg hcond]
    rw [List.getElem?_map, List.getElem?_range ht, Option.map_some']
    have hgd : (s.bumpers.getD []).getD t dfltConfig = b := by
      rw [hbs]
      show bs.getD t dfltConfig = b
      rw [List.getD_eq_getElem?_getD, hbt]
      rfl
    rw [hgd, castOf]
  · simp only [probePose, cfg02]
    norm_num [Real.cos_pi_div_two, Real.sin_pi_div_two]

/-- Witness for C1 at the spec's example transducer, as index 0 of a
configured state. -/
theorem C1_probe_geometry_witness :
    (updateCasts sLazy)[0]? = some (probePose cfg02, cfg02.length) :=
  C1_probe_geometry.2.1 sLazy [cfg02] 0 cfg02 rfl (by decide) (by decide) rfl

/-- The nearest-candidate selection only ever returns an element of its input
list. -/
theorem nearestCand_mem {l : List (ModelT × ℝ)} {c : ModelT × ℝ}
    (h : nearestCand l = some c) : c ∈ l := by
  induction l with
  | nil => simp [nearestCand] at h
  | cons a rest ih =>
    rw [nearestCand] at h
    cases hr : nearestCand rest with
    | none =>
      simp only [hr] at h
      cases h
      exact List.mem_cons_self _ _
    | some b =>
      simp only [hr] at h
      by_cases hle : a.2 ≤ b.2
      · rw [if_pos hle] at h
        cases h
        exact List.mem_cons_self _ _
      · rw [if_neg hle] at h
        cases h
        exact List.mem_cons_of_mem a (ih hr)

/-- C2: the matcher `bumper_match` accepts a candidate iff the candidate's
`obstacle_return` flag is set and the candidate is neither the casting model
nor one of its ancestors nor one of its descendants; consequently a ray cast
made with this matcher never reports the caster or a related model as the
hit, whatever geometry overlaps the ray. -/
theorem C2_matcher_self_exclusion :
    (∀ c f : ModelT, bumper_match c f = true ↔
       (c.obstacle_return = true ∧
         ¬(c = f ∨ c.isAncestorOf f = true ∨ f.isAncestorOf c = true)))
  ∧ (∀ (cands : List (ModelT × ℝ)) (p : Pose) (r : ℝ) (f m : ModelT) (q : Pose),
       raytrace cands p r (fun c => bumper_match c f) = ⟨some m, q⟩ →
       m.obstacle_return = true ∧ ¬(m = f) ∧
         m.isAncestorOf f = false ∧ f.isAncestorOf m = false) := by
  have hchar : ∀ c f : ModelT, bumper_match c f = true ↔
      (c.obstacle_return = true ∧
        ¬(c = f ∨ c.isAncestorOf f = true ∨ f.isAncestorOf c = true)) := by
    intro c f
    rw [bumper_match, ModelT.IsRelated]
    simp only [Bool.and_eq_true, Bool.not_eq_true', Bool.or_eq_false_iff,
      decide_eq_false_iff_not, Bool.not_eq_true]
    constructor
    · rintro ⟨h1, ⟨h2, h3⟩, h4⟩
      refine ⟨h1, ?_⟩
      rintro (h | h | h)
      · exact h2 h
      · rw [h3] at h; exact Bool.false_ne_true h
      · rw [h4] at h; exact Bool.false_ne_true h
    · rintro ⟨h1, h2⟩
      push_neg at h2
      obtain ⟨h2a, h2b, h2c⟩ := h2
      exact ⟨h1, ⟨h2a, by simpa using h2b⟩, by simpa using h2c⟩
  refine ⟨hchar, ?_⟩
  intro cands p r f m q h
  rw [raytrace] at h
  cases hn : nearestCand (cands.filter (castAccepts (fun c => bumper_match c f) r)) with
  | none =>
    rw [hn] at h
    exact absurd (congrArg RaytraceResult.mod h) (by simp)
  | some c =>
    rw [hn] at h
    have hm : c.1 = m := by
      have := congrArg RaytraceResult.mod h
      simpa using this
    have hmem := nearestCand_mem hn
    have hacc : castAccepts (fun c => bumper_match c f) r c = true :=
      List.of_mem_filter hmem
    have hbm : bumper_match c.1 f = true := by
      rw [castAccepts] at hacc
      simp only [Bool.and_eq_true] at hacc
      exact hacc.1.1
    rw [hm] at hbm
    obtain ⟨h1, h2⟩ := (hchar m f).mp hbm
    push_neg at h2
    obtain ⟨h2a, h2b, h2c⟩ := h2
    exact ⟨h1, h2a, by simpa using h2b, by simpa using h2c⟩

/-- Witness for C2: an unrelated obstacle one metre along a ray of max range
two metres is reported, and it is indeed unrelated to the caster. -/
theorem C2_matcher_self_exclusion_witness :
    raytrace [(mObs, 1)] ⟨0, 0, 0, 0⟩ 2 (fun c => bumper_match c mEx) =
      ⟨some mObs, ⟨0 + 1 * Real.cos 0, 0 + 1 * Real.sin 0, 0, 0⟩⟩
  ∧ (mObs.obstacle_return = true ∧ ¬(mObs = mEx) ∧
      mObs.isAncestorOf mEx = false ∧ mEx.isAncestorOf mObs = false) := by
  have hbm : bumper_match mObs mEx = true := by decide
  have hacc : castAccepts (fun c => bumper_match c mEx) 2 (mObs, 1) = true := by
    rw [castAccepts]
    simp only [hbm, Bool.true_and, Bool.and_eq_true, decide_eq_true_eq]
    norm_num
  have hray : raytrace [(mObs, 1)] ⟨0, 0, 0, 0⟩ 2 (fun c => bumper_match c mEx) =
      ⟨some mObs, ⟨0 + 1 * Real.cos 0, 0 + 1 * Real.sin 0, 0, 0⟩⟩ := by
    rw [raytrace]
    rw [List.filter_cons, if_pos hacc, List.filter_nil]
    rfl
  exact ⟨hray, C2_matcher_self_exclusion.2 [(mObs, 1)] ⟨0, 0, 0, 0⟩ 2 mEx mObs
    ⟨0 + 1 * Real.cos 0, 0 + 1 * Real.sin 0, 0, 0⟩ hray⟩

/-- Association-list lookup is invariant under permutation when the keys are
pairwise distinct. -/
theorem lookup_eq_of_perm {β : Type} {l₁ l₂ : List (Nat × β)} (h : l₁.Perm l₂)
    (nd : (l₁.map Prod.fst).Nodup) (a : Nat) : l₁.lookup a = l₂.lookup a := by
  induction h with
  | nil => rfl
  | cons x h ih =>
    obtain ⟨k, v⟩ := x
    rw [List.lookup_cons, List.lookup_cons]
    cases hak : a == k with
    | false =>
      simp only [hak]
      apply ih
      simp only [List.map_cons, List.nodup_cons] at nd
      exact nd.2
    | true => simp only [hak]
  | swap x y t =>
    obtain ⟨k₁, v₁⟩ := x
    obtain ⟨k₂, v₂⟩ := y
    have hne : k₂ ≠ k₁ := by
      simp only [List.map_cons, List.nodup_cons, List.mem_cons] at nd
      exact fun hc => nd.1 (Or.inl hc)
    by_cases h2 : a = k₂
    · subst h2
      simp [List.lookup_cons, beq_eq_false_iff_ne.mpr hne]
    · have h2' : (a == k₂) = false := beq_eq_false_iff_ne.mpr h2
      by_cases h1 : a = k₁
      · subst h1
        simp [List.lookup_cons, h2']
      · have h1' : (a == k₁) = false := beq_eq_false_iff_ne.mpr h1
        simp [List.lookup_cons, h1', h2']
  | trans h₁ h₂ ih₁ ih₂ =>
    rw [ih₁ nd, ih₂ ((h₁.map Prod.fst).nodup_iff.mp nd)]

/-- The keyed reader is lookup-with-default. -/
theorem readKeyed_eq {α : Type} (entries : List (Nat × α)) (i : Nat) (d : α) :
    readKeyed entries i d = (entries.lookup i).getD d := by
  rw [readKeyed]
  cases entries.lookup i <;> rfl

/-- What `Load` puts at each index of the transducer array: the pose override
(components defaulting to 0) and the length override, defaulting to the
common length, which itself defaults to 0. -/
theorem buildBumpers_getElem? (wf : Worldfile) (n i : Nat) :
    (buildBumpers wf n)[i]? =
      if i < n then
        some { pose := ⟨(readKeyed wf.bposes i (0, 0, 0, 0)).1,
                        (readKeyed wf.bposes i (0, 0, 0, 0)).2.1,
                        (readKeyed wf.bposes i (0, 0, 0, 0)).2.2.1,
                        (readKeyed wf.bposes i (0, 0, 0, 0)).2.2.2⟩,
               length := (wf.blengths.lookup i).getD (wf.blength.getD 0) }
      else none := by
  rw [buildBumpers, applyIndexed, setCommon, List.getElem?_mapIdx, List.getElem?_replicate]
  by_cases hi : i < n
  · rw [if_pos hi, if_pos hi, Option.map_some']
    rw [show (readKeyed wf.blengths i
      (⟨⟨0, 0, 0, 0⟩, wf.blength.getD 0⟩ : bumper_config_t).length) =
        (wf.blengths.lookup i).getD (wf.blength.getD 0) from readKeyed_eq _ _ _]
  · rw [if_neg hi, if_neg hi]
    rfl

/-- C3: loading a configuration with count `n` builds the array by applying
the common default length first and the per-index overrides afterwards in
index order: index `i` receives the override when one exists and the default
`L` otherwise, and the resulting configuration — indeed the whole result of
`Load` — is the same for any two orders in which the (distinct-index)
overrides were supplied. -/
theorem C3_default_then_override :
    (∀ (wf : Worldfile) (s : BumperState) (n : Int), wf.bcount = some n → 0 < n →
       Load wf s = some { s with bumper_count := n.toNat,
                                 bumpers := some (buildBumpers wf n.toNat) })
  ∧ (∀ (n : Nat) (L : ℝ) (ps : List (Nat × (ℝ × ℝ × ℝ × ℝ))) (os : List (Nat × ℝ)) (i : Nat),
       i < n →
       ((buildBumpers ⟨some (n : Int), some L, ps, os⟩ n).map bumper_config_t.length)[i]? =
         some ((os.lookup i).getD L))
  ∧ (∀ (n : Int) (L : ℝ) (ps : List (Nat × (ℝ × ℝ × ℝ × ℝ))) (os os' : List (Nat × ℝ))
       (s : BumperState),
       os.Perm os' → (os.map Prod.fst).Nodup →
       Load ⟨some n, some L, ps, os⟩ s = Load ⟨some n, some L, ps, os'⟩ s) := by
  refine ⟨?_, ?_, ?_⟩
  · intro wf s n hc hn
    simp only [Load, hc]
    rw [if_neg (by omega)]
  · intro n L ps os i hi
    rw [List.getElem?_map, buildBumpers_getElem?, if_pos hi, Option.map_some']
    rfl
  · intro n L ps os os' s hperm hnd
    simp only [Load]
    by_cases hn : n ≤ 0
    · rw [if_pos hn, if_pos hn]
    · rw [if_neg hn, if_neg hn]
      have hbb : buildBumpers ⟨some n, some L, ps, os⟩ n.toNat =
          buildBumpers ⟨some n, some L, ps, os'⟩ n.toNat := by
        apply List.ext_getElem?
        intro i
        rw [buildBumpers_getElem?, buildBumpers_getElem?]
        by_cases hi : i < n.toNat
        · rw [if_pos hi, if_pos hi, show (⟨some n, some L, ps, os⟩ :
            Worldfile).blengths.lookup i = (⟨some n, some L, ps, os'⟩ :
            Worldfile).blengths.lookup i from lookup_eq_of_perm hperm hnd i]
        · rw [if_neg hi, if_neg hi]
      rw [hbb]

/-- Witness for C3 on count 2, default length 5: index 0 (no override) gets
the default, index 1 (override 7) gets the override, and the two orders of
supplying the overrides (3 at index 0, 4 at index 1) load identically. -/
theorem C3_default_then_override_witness :
    ((buildBumpers ⟨some 2, some 5, [], [(1, 7)]⟩ 2).map bumper_config_t.length)[0]? =
      some (([((1 : Nat), (7 : ℝ))].lookup 0).getD 5)
  ∧ ((buildBumpers ⟨some 2, some 5, [], [(1, 7)]⟩ 2).map bumper_config_t.length)[1]? =
      some (([((1 : Nat), (7 : ℝ))].lookup 1).getD 5)
  ∧ ([((1 : Nat), (7 : ℝ))].lookup 0).getD 5 = 5
  ∧ ([((1 : Nat), (7 : ℝ))].lookup 1).getD 5 = 7
  ∧ Load ⟨some 2, some 5, [], [(0, 3), (1, 4)]⟩ initState =
      Load ⟨some 2, some 5, [], [(1, 4), (0, 3)]⟩ initState :=
  ⟨C3_default_then_override.2.1 2 5 [] [(1, 7)] 0 (by decide),
   C3_default_then_override.2.1 2 5 [] [(1, 7)] 1 (by decide),
   rfl, rfl,
   C3_default_then_override.2.2 2 5 [] [(0, 3), (1, 4)] [(1, 4), (0, 3)] initState
     (List.Perm.swap (1, 4) (0, 3) []) (by decide)⟩

/-- A sample left by a previous tick whose cast hit at point (3, 4). -/
def prevHitSample : bumper_sample_t := ⟨true, ⟨3, 4⟩⟩

/-- A configured one-transducer state whose sample buffer still holds
`prevHitSample` from the previous tick. -/
def sPrevHit : BumperState := ⟨some [cfg02], some [prevHitSample], 1, BUMPER_WATTS⟩

/-- Counterexample to C4 as stated: in a world with no candidates the next
tick's cast misses, and the resulting sample has `hit = false` yet its
`hit_point` field still holds the previous tick's intersection point (3, 4) —
the point is retained, not absent. -/
theorem C4_counterexample :
    (Update gEmpty mEx sPrevHit).samples = some [{ hit := false, hit_point := ⟨3, 4⟩ }]
  ∧ prevHitSample.hit = true ∧ prevHitSample.hit_point = ⟨3, 4⟩ :=
  ⟨rfl, rfl, rfl⟩

/-- C4 (amended): after an `Update`, the sample for each in-range index `t`
has `hit` true iff this tick's ray cast for `t` returned a hit model, and on
a hit the `hit_point` holds this tick's intersection point; on a miss the
`hit_point` field is simply not assigned, so it retains whatever it held
before (only the `hit` flag marks it as invalid). -/
theorem C4_hit_point_semantics :
    (∀ (geom : Pose → List (ModelT × ℝ)) (finder : ModelT) (bs : List bumper_config_t)
       (t : Nat) (old : bumper_sample_t),
       (updateSample geom finder bs t old).hit = (rayFor geom finder bs t).mod.isSome
     ∧ ((rayFor geom finder bs t).mod.isSome = true →
         (updateSample geom finder bs t old).hit_point =
           ⟨(rayFor geom finder bs t).pose.x, (rayFor geom finder bs t).pose.y⟩)
     ∧ ((rayFor geom finder bs t).mod.isSome = false →
         (updateSample geom finder bs t old).hit_point = old.hit_point))
  ∧ (∀ (geom : Pose → List (ModelT × ℝ)) (finder : ModelT) (s : BumperState)
       (bs : List bumper_config_t) (t : Nat),
       s.bumpers = some bs → 1 ≤ s.bumper_count → t < s.bumper_count →
       t < (s.samples.getD (List.replicate s.bumper_count freshSample)).length →
       (Update geom finder s).samples.bind (fun l => l[t]?) =
         some (updateSample geom finder bs t
           ((s.samples.getD (List.replicate s.bumper_count freshSample)).getD t
             freshSample))) := by
  constructor
  · intro geom finder bs t old
    refine ⟨rfl, ?_, ?_⟩
    · intro h
      simp only [updateSample, h]
      rfl
    · intro h
      simp only [updateSample, h]
      rfl
  · intro geom finder s bs t hbs hc ht hlen
    have hcond : ¬(s.bumpers.isNone = true ∨ s.bumper_count < 1) := by
      rw [hbs]; push_neg; exact ⟨by simp, by omega⟩
    rw [Update, if_neg hcond]
    simp only [hbs, Option.getD_some, Option.some_bind]
    exact writeLoop_getElem?_of_lt _ _ ht hlen

/-- Witness for C4 (amended) on the previous-tick state: the cast misses, the
hit flag goes false, and the point field keeps the old sample's value. -/
theorem C4_hit_point_semantics_witness :
    (updateSample gEmpty mEx [cfg02] 0 prevHitSample).hit =
      (rayFor gEmpty mEx [cfg02] 0).mod.isSome
  ∧ (rayFor gEmpty mEx [cfg02] 0).mod.isSome = false
  ∧ (updateSample gEmpty mEx [cfg02] 0 prevHitSample).hit_point = prevHitSample.hit_point
  ∧ (Update gEmpty mEx sPrevHit).samples.bind (fun l => l[0]?) =
      some (updateSample gEmpty mEx [cfg02] 0
        ((sPrevHit.samples.getD (List.replicate sPrevHit.bumper_count freshSample)).getD 0
          freshSample)) :=
  ⟨(C4_hit_point_semantics.1 gEmpty mEx [cfg02] 0 prevHitSample).1,
   rfl,
   (C4_hit_point_semantics.1 gEmpty mEx [cfg02] 0 prevHitSample).2.2 rfl,
   C4_hit_point_semantics.2 gEmpty mEx sPrevHit [cfg02] 0 rfl (by decide) (by decide)
     (by decide)⟩

/-- Worldfile configuring a single transducer of length 0.2. -/
def wfB1 : Worldfile := ⟨some 1, some 0.2, [], []⟩

/-- Worldfile reconfiguring to three transducers of length 0.2. -/
def wfB3 : Worldfile := ⟨some 3, some 0.2, [], []⟩

/-- The state after loading `wfB1` into a fresh model. -/
def sCfg1 : BumperState :=
  { initState with bumper_count := 1, bumpers := some (buildBumpers wfB1 1) }

/-- Evaluation of the C5 scenario on the code as written: load `bcount 1`,
start up, run one `Update` (the buffer gets 1 sample), then reload with
`bcount 3`.  `Load` does **not** invalidate the sample buffer: the reloaded
state keeps the stale 1-element buffer, so the next `Update` sees a non-null
buffer, allocates nothing, and its loop writes 3 samples into the 1-element
buffer (in C++ an out-of-bounds heap write; in this model the extra writes
are lost and the buffer stays at length 1, not 3). -/
theorem C5_reconfig_stale_buffer :
    Load wfB1 initState = some sCfg1
  ∧ (Update gEmpty mEx (Startup sCfg1)).samples.map List.length = some 1
  ∧ Load wfB3 (Update gEmpty mEx (Startup sCfg1)) =
      some { Update gEmpty mEx (Startup sCfg1) with
               bumper_count := 3, bumpers := some (buildBumpers wfB3 3) }
  ∧ (Load wfB3 (Update gEmpty mEx (Startup sCfg1))).map
      (fun s => s.samples.map List.length) = some (some 1)
  ∧ (Load wfB3 (Update gEmpty mEx (Startup sCfg1))).map updateAllocates = some false
  ∧ (Load wfB3 (Update gEmpty mEx (Startup sCfg1))).map
      (fun s => (Update gEmpty mEx s).samples.map List.length) = some (some 1) :=
  ⟨rfl, rfl, rfl, rfl, rfl, rfl⟩

/-- C10: with a count but no global `blength` key, the common length defaults
to 0, so every index without a per-index length override gets length 0; the
load succeeds (nothing rejects or substitutes a positive default), the cast
for such an index is issued with `max_range = 0`, and a cast with
`max_range = 0` can never register a hit. -/
theorem C10_missing_default_length (n : Nat) (ps : List (Nat × (ℝ × ℝ × ℝ × ℝ)))
    (os : List (Nat × ℝ)) (i : Nat) (hn : 0 < n) (hi : i < n)
    (hov : os.lookup i = none) :
    (∀ s : BumperState, Load ⟨some (n : Int), none, ps, os⟩ s =
       some { s with bumper_count := (n : Int).toNat,
                     bumpers := some (buildBumpers ⟨some (n : Int), none, ps, os⟩
                       (n : Int).toNat) })
  ∧ ((buildBumpers ⟨some (n : Int), none, ps, os⟩ n).map bumper_config_t.length)[i]? =
      some 0
  ∧ (∀ s : BumperState,
       s.bumpers = some (buildBumpers ⟨some (n : Int), none, ps, os⟩ n) →
       s.bumper_count = n →
       ((updateCasts s)[i]?).map Prod.snd = some 0)
  ∧ (∀ (cands : List (ModelT × ℝ)) (p : Pose) (matcher : ModelT → Bool),
       (raytrace cands p 0 matcher).mod = none) := by
  refine ⟨?_, ?_, ?_, ?_⟩
  · intro s
    simp only [Load]
    rw [if_neg (by omega)]
  · rw [List.getElem?_map, buildBumpers_getElem?, if_pos hi, Option.map_some']
    show some ((os.lookup i).getD ((none : Option ℝ).getD 0)) = some 0
    rw [hov]
    rfl
  · intro s hbs hcount
    have hcond : ¬(s.bumpers.isNone = true ∨ s.bumper_count < 1) := by
      rw [hbs, hcount]; push_neg; exact ⟨by simp, by omega⟩
    have hi' : i < s.bumper_count := by rw [hcount]; exact hi
    rw [updateCasts, if_neg hcond, List.getElem?_map, List.getElem?_range hi',
      Option.map_some', Option.map_some']
    have hlen0 : ((s.bumpers.getD []).getD i dfltConfig).length = 0 := by
      rw [hbs]
      show ((buildBumpers ⟨some (n : Int), none, ps, os⟩ n).getD i dfltConfig).length = 0
      rw [List.getD_eq_getElem?_getD, buildBumpers_getElem?, if_pos hi]
      show ((os.lookup i).getD ((none : Option ℝ).getD 0)) = 0
      rw [hov]
      rfl
    show some ((s.bumpers.getD []).getD i dfltConfig).length = some 0
    rw [hlen0]
  · intro cands p matcher
    have hfil : cands.filter (castAccepts matcher 0) = [] := by
      rw [List.filter_eq_nil_iff]
      intro c hc
      rw [castAccepts]
      simp only [Bool.and_eq_true, decide_eq_true_eq, not_and]
      rintro ⟨hm, h0⟩ hlt
      exact absurd (lt_of_le_of_lt h0 hlt) (lt_irrefl 0)
    rw [raytrace, hfil]
    rfl

/-- Witness for C10 on a one-transducer configuration with no length keys at
all: the load succeeds, index 0 has length 0, its cast has max range 0, and a
zero-range cast in any world misses. -/
theorem C10_missing_default_length_witness :
    Load ⟨some ((1 : Nat) : Int), none, [], []⟩ initState =
      some { initState with
               bumper_count := (((1 : Nat) : Int)).toNat,
               bumpers := some (buildBumpers ⟨some ((1 : Nat) : Int), none, [], []⟩
                 (((1 : Nat) : Int)).toNat) }
  ∧ ((buildBumpers ⟨some ((1 : Nat) : Int), none, [], []⟩ 1).map
      bumper_config_t.length)[0]? = some 0
  ∧ ((updateCasts ⟨some (buildBumpers ⟨some ((1 : Nat) : Int), none, [], []⟩ 1), none, 1,
      0⟩)[0]?).map Prod.snd = some 0
  ∧ (raytrace [(mObs, 0)] ⟨0, 0, 0, 0⟩ 0 (fun _ => true)).mod = none :=
  ⟨(C10_missing_default_length 1 [] [] 0 (by decide) (by decide) rfl).1 initState,
   (C10_missing_default_length 1 [] [] 0 (by decide) (by decide) rfl).2.1,
   (C10_missing_default_length 1 [] [] 0 (by decide) (by decide) rfl).2.2.1
     ⟨some (buildBumpers ⟨some ((1 : Nat) : Int), none, [], []⟩ 1), none, 1, 0⟩ rfl rfl,
   (C10_missing_default_length 1 [] [] 0 (by decide) (by decide) rfl).2.2.2
     [(mObs, 0)] ⟨0, 0, 0, 0⟩ (fun _ => true)⟩
